import Mathlib

/-
Verification of the pdfsvc repository: a shallow embedding of the request
body spooler (vendored buffering handler) and of the pdfsvc HTTP handler
with its conversion gate, together with theorems settling the frozen
claims about them.

Byte streams model io.Reader sources: a list of pending bytes plus a flag
saying whether reading past the end yields a clean EOF or a non-EOF I/O
error.  Machine integers from the Go code (int64 ContentLength, maxSize,
bufSize) are modelled as Int; none of the arithmetic involved can
overflow, so no modular reduction is needed.
-/

namespace Pdfsvc

/-- A byte source (io.Reader): the bytes still readable, and whether the
read that hits the end of data reports a clean EOF (false) or a non-EOF
I/O error (true). -/
structure Stream where
  data : List Nat
  failAtEnd : Bool
deriving DecidableEq, Repr

/-- Error outcome of a copy from a Stream: clean end of input, or an I/O
error from the source. -/
inductive CopyErr
  | eof
  | ioErr
deriving DecidableEq, Repr

/-- Result of io.CopyN: the bytes copied, the remaining source, and the
error (none when exactly the requested count was copied). -/
structure CopyOut where
  copied : List Nat
  rest : Stream
  err : Option CopyErr
deriving DecidableEq, Repr

/-- io.CopyN(dst, src, n): copies up to n bytes.  If the source holds at
least n bytes, exactly n are copied and no error is returned (the
limiting reader stops before the source end is ever touched).  Otherwise
everything available is copied and the end-of-data condition of the
source is reported: io.EOF for a clean end, an I/O error otherwise. -/
def copyN (s : Stream) (n : Nat) : CopyOut :=
  if n ≤ s.data.length then
    ⟨s.data.take n, ⟨s.data.drop n, s.failAtEnd⟩, none⟩
  else
    ⟨s.data, ⟨[], s.failAtEnd⟩, some (if s.failAtEnd then CopyErr.ioErr else CopyErr.eof)⟩

/-- io.Copy(dst, src): copies until the source is exhausted; returns no
error on clean EOF, the I/O error otherwise. -/
def copyAll (s : Stream) : List Nat × Option CopyErr :=
  (s.data, if s.failAtEnd then some CopyErr.ioErr else none)

/-- bytes.Buffer used as the in-memory spool: stored bytes plus the read
offset (fresh buffers start at offset 0, reads consume from there). -/
structure MemBuf where
  data : List Nat
  off : Nat
deriving DecidableEq, Repr

/-- A fresh empty bytes.Buffer. -/
def MemBuf.empty : MemBuf := ⟨[], 0⟩

/-- Writing appends to the stored bytes without moving the read offset. -/
def MemBuf.write (b : MemBuf) (bs : List Nat) : MemBuf := ⟨b.data ++ bs, b.off⟩

/-- Reading everything remaining in the buffer. -/
def MemBuf.readAll (b : MemBuf) : List Nat := b.data.drop b.off

/-- The unlinked temporary file used as the disk spool: its contents and
the current file offset, shared by reads and writes (os.File). -/
structure SpoolFile where
  content : List Nat
  pos : Nat
deriving DecidableEq, Repr

/-- A freshly created empty temporary file. -/
def SpoolFile.empty : SpoolFile := ⟨[], 0⟩

/-- Writing at the current offset, overwriting in place and advancing the
offset (os.File write semantics). -/
def SpoolFile.write (f : SpoolFile) (bs : List Nat) : SpoolFile :=
  ⟨f.content.take f.pos ++ bs ++ f.content.drop (f.pos + bs.length), f.pos + bs.length⟩

/-- f.Seek(0, io.SeekStart): rewind to the start of the file. -/
def SpoolFile.seekStart (f : SpoolFile) : SpoolFile := ⟨f.content, 0⟩

/-- Reading everything from the current offset to the end of file. -/
def SpoolFile.readAll (f : SpoolFile) : List Nat := f.content.drop f.pos

/-- Which spool strategy the handler selected for a request body. -/
inductive Storage
  | mem
  | disk
deriving DecidableEq, Repr

/-- Configuration of the buffering handler: max allowed body size
(unlimited if ≤ 0), in-memory buffer threshold (disabled if ≤ 0), whether
a file-limit gate was configured (WithFileLimit with maxFiles ≥ 1), and
the queue wait budget. -/
structure BufConfig where
  maxSize : Int
  bufSize : Int
  hasGate : Bool
  wait : Int
deriving DecidableEq, Repr

/-- The slice of an http.Request the buffering handler looks at:
ContentLength (negative when unknown, 0 when no body) and the body
source. -/
structure HttpRequest where
  contentLength : Int
  body : Stream
deriving DecidableEq, Repr

/-- Which arm of the gate select fires first: a slot becomes available,
the wait budget elapses, or the caller's context is cancelled. -/
inductive GateEvent
  | slot
  | timeout
  | cancelled
deriving DecidableEq, Repr

/-- Environment choices resolving the nondeterminism of one request
through the buffering handler: the gate select outcome, whether temp file
creation succeeds, and whether the rewind seek succeeds. -/
structure SpoolEnv where
  gateEvent : GateEvent
  tempFileOk : Bool
  seekOk : Bool
deriving DecidableEq, Repr

/-- Observable resource events of the buffering handler, in order. -/
inductive Event
  | slotAcquire
  | slotRelease
  | fileCreate
deriving DecidableEq, Repr

/-- The reply of the buffering handler: pass the request through
untouched (zero ContentLength), invoke the downstream handler with the
spooled body, or answer 413 / 503 / 500 directly. -/
inductive SpoolResponse
  | passThrough
  | delegated (body : List Nat)
  | tooLarge
  | unavailable
  | internalError
deriving DecidableEq, Repr

/-- What one request through the buffering handler produced: the reply,
the trace of gate and file events, how many bytes were read from the
source, and the capacity of the memory buffer when one was allocated. -/
structure SpoolResult where
  response : SpoolResponse
  trace : List Event
  bytesRead : Nat
  memCap : Option Int
deriving DecidableEq, Repr

/-- The copy limit of the limited branch: the declared ContentLength when
positive, else the configured maxSize (lines 275-279 of the source). -/
def effLimit (h : BufConfig) (r : HttpRequest) : Int :=
  if 0 < r.contentLength then r.contentLength else h.maxSize

/-- Hand the spooled bytes to the downstream handler: write them into the
selected storage, rewind disk-backed storage (replying 500 when the seek
fails), and deliver what the downstream handler will read back. -/
def deliver (env : SpoolEnv) (st : Storage) (bs : List Nat) : SpoolResponse :=
  match st with
  | Storage.mem => SpoolResponse.delegated ((MemBuf.empty.write bs).readAll)
  | Storage.disk =>
      if env.seekOk then
        SpoolResponse.delegated (((SpoolFile.empty.write bs).seekStart).readAll)
      else SpoolResponse.internalError

/-- The limited copy phase (maxSize > 0): after the main copy c, a non-EOF
failure of the main copy is a 500; then a 32-byte probe read past the
body end is attempted, and any probed data or non-EOF probe outcome is a
413; otherwise the body is delivered.  The second component counts bytes
read from the source. -/
def finishLimited (env : SpoolEnv) (st : Storage) (c : CopyOut) : SpoolResponse × Nat :=
  if c.err = some CopyErr.ioErr then (SpoolResponse.internalError, c.copied.length)
  else if (copyN c.rest 32).err ≠ some CopyErr.eof ∨ 0 < (copyN c.rest 32).copied.length then
    (SpoolResponse.tooLarge, c.copied.length + (copyN c.rest 32).copied.length)
  else (deliver env st c.copied, c.copied.length)

/-- The unlimited copy phase (maxSize ≤ 0): copy everything; any error is
a 500, otherwise deliver. -/
def finishUnlimited (env : SpoolEnv) (st : Storage) (a : List Nat × Option CopyErr) :
    SpoolResponse × Nat :=
  if (a.2).isSome then (SpoolResponse.internalError, a.1.length)
  else (deliver env st a.1, a.1.length)

/-- The copy-and-finish phase of the buffering handler (lines 275-304),
selected by whether a max body size is configured. -/
def finishSpool (h : BufConfig) (r : HttpRequest) (env : SpoolEnv) (st : Storage) :
    SpoolResponse × Nat :=
  if 0 < h.maxSize then finishLimited env st (copyN r.body (effLimit h r).toNat)
  else finishUnlimited env st (copyAll r.body)

/-- The buffering handler ServeHTTP (lines 233-309): pass through empty
bodies; reject declared lengths over the configured max; pick the memory
strategy for declared lengths within the buffer threshold; otherwise
acquire a disk slot when a gate is configured (503 when the wait budget
elapses or the caller cancels first), create the temporary file (500 on
failure, with the slot released), run the copy phase, and release the
slot when the handler returns on every path. -/
def bufServe (h : BufConfig) (r : HttpRequest) (env : SpoolEnv) : SpoolResult :=
  if r.contentLength = 0 then ⟨SpoolResponse.passThrough, [], 0, none⟩
  else if 0 < h.maxSize ∧ h.maxSize < r.contentLength then
    ⟨SpoolResponse.tooLarge, [], 0, none⟩
  else if 0 < h.bufSize ∧ 0 < r.contentLength ∧ r.contentLength ≤ h.bufSize then
    ⟨(finishSpool h r env Storage.mem).1, [], (finishSpool h r env Storage.mem).2,
      some r.contentLength⟩
  else if h.hasGate then
    match env.gateEvent with
    | GateEvent.slot =>
        if env.tempFileOk then
          ⟨(finishSpool h r env Storage.disk).1,
            [Event.slotAcquire, Event.fileCreate, Event.slotRelease],
            (finishSpool h r env Storage.disk).2, none⟩
        else ⟨SpoolResponse.internalError, [Event.slotAcquire, Event.slotRelease], 0, none⟩
    | GateEvent.timeout => ⟨SpoolResponse.unavailable, [], 0, none⟩
    | GateEvent.cancelled => ⟨SpoolResponse.unavailable, [], 0, none⟩
  else if env.tempFileOk then
    ⟨(finishSpool h r env Storage.disk).1, [Event.fileCreate],
      (finishSpool h r env Storage.disk).2, none⟩
  else ⟨SpoolResponse.internalError, [], 0, none⟩

/-- One step of a counting gate built on a buffered channel of the given
capacity: a send (acquire) succeeds only while the channel holds fewer
than cap tokens, a receive (release) only while it holds at least one. -/
inductive GateStep (cap : Nat) : Nat → Nat → Prop
  | acquire {n : Nat} : n < cap → GateStep cap n (n + 1)
  | release {n : Nat} : 0 < n → GateStep cap n (n - 1)

/-- The gate states reachable from the empty channel. -/
inductive GateReach (cap : Nat) : Nat → Prop
  | init : GateReach cap 0
  | step {n m : Nat} : GateReach cap n → GateStep cap n m → GateReach cap m

/-- Channel-capacity invariant: the number of outstanding tokens never
exceeds the gate capacity. -/
theorem gateReach_le {cap n : Nat} (h : GateReach cap n) : n ≤ cap := by
  induction h with
  | init => exact Nat.zero_le _
  | step _ s ih =>
      cases s with
      | acquire hlt => omega
      | release hpos => omega

/-- Why a context reports being done: the caller gave up, or a deadline
(the caller's own, or the conversion timeout derived from it) elapsed.
These are the two sentinel errors of the context package. -/
inductive CtxErr
  | canceled
  | deadlineExceeded
deriving DecidableEq, Repr

/-- Failure of the convert operation: a context error surfaced because
the context was done, or a renderer process failure (non-zero exit,
signal, start error) with the context still live. -/
inductive ConvertErr
  | ctx (e : CtxErr)
  | process
deriving DecidableEq, Repr

/-- Observable events of one convert call, in order. -/
inductive CEvent
  | permitAcquire
  | rendererRun
  | permitRelease
deriving DecidableEq, Repr

/-- Environment choices resolving one convert call: which arm of the gate
select fires (some e: the context was done with error e before a permit
was obtained), the renderer outcome (some out: clean exit with output
out; none: the command returned an error), and the context state observed
after a failed command (some e: the context was done with error e). -/
structure ConvertEnv where
  ctxAtGate : Option CtxErr
  cmdSuccess : Option (List Nat)
  ctxAfterCmd : Option CtxErr
deriving DecidableEq, Repr

/-- What one convert call produced: the rendered bytes or a failure, and
the trace of permit events. -/
structure ConvertResult where
  result : Except ConvertErr (List Nat)
  trace : List CEvent
deriving Repr

/-- handler.convert (lines 105-141): wait for a conversion permit unless
the context is done first (returning ctx.Err() with no permit ever
taken); run the renderer under the effective deadline; on a clean exit
return its output; on a command error return ctx.Err() when the context
is done, else the process failure.  The permit is released when convert
returns, on every path after acquisition. -/
def convert (env : ConvertEnv) : ConvertResult :=
  match env.ctxAtGate with
  | some e => ⟨Except.error (ConvertErr.ctx e), []⟩
  | none =>
      match env.cmdSuccess with
      | some out =>
          ⟨Except.ok out, [CEvent.permitAcquire, CEvent.rendererRun, CEvent.permitRelease]⟩
      | none =>
          match env.ctxAfterCmd with
          | some e =>
              ⟨Except.error (ConvertErr.ctx e),
                [CEvent.permitAcquire, CEvent.rendererRun, CEvent.permitRelease]⟩
          | none =>
              ⟨Except.error ConvertErr.process,
                [CEvent.permitAcquire, CEvent.rendererRun, CEvent.permitRelease]⟩

/-- Configuration of the pdfsvc handler the claims need: the optional
bearer token (empty = authentication disabled). -/
structure PdfConfig where
  token : String
deriving DecidableEq, Repr

/-- The slice of an http.Request the pdfsvc handler looks at. -/
structure PdfRequest where
  method : String
  authorization : String
  contentType : String
deriving DecidableEq, Repr

/-- Environment choices for one pdfsvc request: whether charset.NewReader
succeeds on the body, and the convert-call environment. -/
structure PdfEnv where
  charsetOk : Bool
  conv : ConvertEnv
deriving Repr

/-- What the pdfsvc handler produced: the HTTP status code, whether the
convert operation was invoked at all, and its permit trace. -/
structure PdfResult where
  status : Nat
  convertInvoked : Bool
  convertTrace : List CEvent
deriving Repr

/-- strings.HasPrefix, on the underlying character lists. -/
def hasPre (s p : String) : Bool := decide (s.data.take p.data.length = p.data)

/-- strings.TrimPrefix: drop the prefix when present, else return the
string unchanged. -/
def goTrimPre (s p : String) : String :=
  if hasPre s p then ⟨s.data.drop p.data.length⟩ else s

/-- The authorization check of lines 72-80: pass when no token is
configured; otherwise require an Authorization header that changes under
TrimPrefix "Bearer " (so the prefix was present) and whose remainder
equals the configured token. -/
def authorized (cfg : PdfConfig) (r : PdfRequest) : Bool :=
  if cfg.token = "" then true
  else if goTrimPre r.authorization "Bearer " ≠ r.authorization
          ∧ goTrimPre r.authorization "Bearer " = cfg.token then true
  else false

/-- handler.ServeHTTP of pdfsvc (lines 66-103): 405 for non-POST, 401
when the bearer check fails, 400 when the Content-Type does not start
with text/html, 415 when charset decoding cannot be set up, then convert:
a deadline-exceeded failure maps to 504, any other failure to 500, and
success to 200. -/
def pdfsvcServe (cfg : PdfConfig) (r : PdfRequest) (env : PdfEnv) : PdfResult :=
  if r.method ≠ "POST" then ⟨405, false, []⟩
  else if authorized cfg r = false then ⟨401, false, []⟩
  else if hasPre r.contentType "text/html" = false then ⟨400, false, []⟩
  else if env.charsetOk = false then ⟨415, false, []⟩
  else
    match (convert env.conv).result with
    | Except.ok _ => ⟨200, true, (convert env.conv).trace⟩
    | Except.error e =>
        ⟨if e = ConvertErr.ctx CtxErr.deadlineExceeded then 504 else 500,
          true, (convert env.conv).trace⟩

/-- Modelled from the claim's words, for comparison with the source's
prefix check: a Content-Type that is exactly text/html, optionally
followed by a parameter section introduced by a semicolon (such as a
charset parameter). -/
def claimHtmlContentType (ct : String) : Bool :=
  decide (ct = "text/html") || hasPre ct "text/html;"

/-- The effective copy limit is positive whenever a max size is
configured. -/
theorem effLimit_pos (h : BufConfig) (r : HttpRequest) (hmax : 0 < h.maxSize) :
    0 < effLimit h r := by
  rw [effLimit]; split <;> omega

/-- The limited copy phase on a main copy that ended with bytes still in
the source: the probe sees them and the phase replies 413 with at most 32
probed bytes. -/
theorem finishLimited_rest_nonempty (env : SpoolEnv) (st : Storage) (pre rest : List Nat)
    (fb : Bool) (hne : rest ≠ []) :
    (finishLimited env st ⟨pre, ⟨rest, fb⟩, none⟩).1 = SpoolResponse.tooLarge ∧
    (finishLimited env st ⟨pre, ⟨rest, fb⟩, none⟩).2 ≤ pre.length + 32 := by
  have hlen : 0 < rest.length := List.length_pos.mpr hne
  rw [finishLimited]
  simp only [copyN]
  rcases le_or_lt 32 rest.length with h32 | h32
  · rw [if_pos h32]
    refine ⟨by simp, ?_⟩
    simp [List.length_take]
  · rw [if_neg (Nat.not_le.mpr h32)]
    cases fb
    · refine ⟨by simp [hlen], ?_⟩
      simp [hlen]
      omega
    · refine ⟨by simp, ?_⟩
      simp
      omega

/-- Over-limit bodies through the limited copy phase: the main copy
consumes exactly the limit, the probe finds leftover data, and the phase
replies 413 after reading at most limit + 32 bytes. -/
theorem finishSpool_over (h : BufConfig) (r : HttpRequest) (env : SpoolEnv) (st : Storage)
    (hmax : 0 < h.maxSize)
    (hover : effLimit h r < (r.body.data.length : Int)) :
    (finishSpool h r env st).1 = SpoolResponse.tooLarge ∧
    ((finishSpool h r env st).2 : Int) ≤ effLimit h r + 32 := by
  have hpos : 0 < effLimit h r := effLimit_pos h r hmax
  have hlt : (effLimit h r).toNat < r.body.data.length := by omega
  rw [finishSpool, if_pos hmax, copyN, if_pos (Nat.le_of_lt hlt)]
  have hne : r.body.data.drop (effLimit h r).toNat ≠ [] := by
    intro hempty
    have := List.length_drop (effLimit h r).toNat r.body.data
    rw [hempty] at this
    simp at this
    omega
  obtain ⟨h1, h2⟩ := finishLimited_rest_nonempty env st
    (r.body.data.take (effLimit h r).toNat) (r.body.data.drop (effLimit h r).toNat)
    r.body.failAtEnd hne
  refine ⟨h1, ?_⟩
  have hlen : (r.body.data.take (effLimit h r).toNat).length = (effLimit h r).toNat := by
    simp [List.length_take]; omega
  rw [hlen] at h2
  omega

/-- The limited copy phase when the source holds exactly the limit and
then raises an I/O error: the main copy succeeds, the zero-byte probe
reports the non-EOF error, and the phase replies 413. -/
theorem finishSpool_exact_fail (h : BufConfig) (r : HttpRequest) (env : SpoolEnv) (st : Storage)
    (hmax : 0 < h.maxSize) (hfail : r.body.failAtEnd = true)
    (hexact : (r.body.data.length : Int) = effLimit h r) :
    (finishSpool h r env st).1 = SpoolResponse.tooLarge := by
  have hpos : 0 < effLimit h r := effLimit_pos h r hmax
  have hlen : (effLimit h r).toNat = r.body.data.length := by omega
  rw [finishSpool, if_pos hmax, copyN, if_pos (le_of_eq hlen)]
  rw [finishLimited]
  simp only [copyN, hfail]
  rw [if_neg (by simp [hlen] : ¬ 32 ≤ (⟨r.body.data.drop (effLimit h r).toNat, true⟩ : Stream).data.length)]
  simp

/-- The limited copy phase when the source ends with an I/O error before
the limit is reached: the main copy reports the error and the phase
replies 500. -/
theorem finishSpool_short_fail (h : BufConfig) (r : HttpRequest) (env : SpoolEnv) (st : Storage)
    (hmax : 0 < h.maxSize) (hfail : r.body.failAtEnd = true)
    (hshort : (r.body.data.length : Int) < effLimit h r) :
    (finishSpool h r env st).1 = SpoolResponse.internalError := by
  have hlt : r.body.data.length < (effLimit h r).toNat := by omega
  rw [finishSpool, if_pos hmax, copyN, if_neg (by omega)]
  rw [finishLimited]
  simp [hfail]

/-- Claim C1: for every request whose body holds more bytes than the
effective limit (the declared length when positive, else the configured
maximum), the buffering handler reads at most limit + 32 bytes from the
source, never invokes the downstream handler (so nothing is silently
truncated), and replies 413 payload too large whenever the copy phase
runs at all (a disk slot granted and the temp file created, or the
memory strategy chosen); the probe read after the main copy is what
detects the excess. -/
theorem c1_bounded_read (h : BufConfig) (r : HttpRequest) (env : SpoolEnv)
    (hmax : 0 < h.maxSize) (hcl : r.contentLength ≠ 0)
    (hover : effLimit h r < (r.body.data.length : Int)) :
    ((bufServe h r env).bytesRead : Int) ≤ effLimit h r + 32 ∧
    (∀ bs, (bufServe h r env).response ≠ SpoolResponse.delegated bs) ∧
    (bufServe h r env).response ≠ SpoolResponse.passThrough ∧
    (env.gateEvent = GateEvent.slot → env.tempFileOk = true →
      (bufServe h r env).response = SpoolResponse.tooLarge) := by
  have hpos : 0 < effLimit h r := effLimit_pos h r hmax
  obtain ⟨ge, tf, sk⟩ := env
  rw [bufServe, if_neg hcl]
  by_cases hrej : 0 < h.maxSize ∧ h.maxSize < r.contentLength
  · rw [if_pos hrej]
    exact ⟨by simp; omega, by simp, by simp, fun _ _ => rfl⟩
  · rw [if_neg hrej]
    by_cases hmem : 0 < h.bufSize ∧ 0 < r.contentLength ∧ r.contentLength ≤ h.bufSize
    · rw [if_pos hmem]
      obtain ⟨ht, hb⟩ := finishSpool_over h r ⟨ge, tf, sk⟩ Storage.mem hmax hover
      exact ⟨by simpa using hb, by simp [ht], by simp [ht], fun _ _ => by simpa using ht⟩
    · rw [if_neg hmem]
      by_cases hg : h.hasGate = true
      · rw [if_pos hg]
        obtain ⟨ht, hb⟩ := finishSpool_over h r ⟨ge, tf, sk⟩ Storage.disk hmax hover
        cases ge
        · cases tf
          · exact ⟨by simp; omega, by simp, by simp, fun _ htf => by simp at htf⟩
          · exact ⟨by simpa using hb, by simp [ht], by simp [ht], fun _ _ => by simpa using ht⟩
        · exact ⟨by simp; omega, by simp, by simp, fun hs _ => by simp at hs⟩
        · exact ⟨by simp; omega, by simp, by simp, fun hs _ => by simp at hs⟩
      · rw [if_neg hg]
        obtain ⟨ht, hb⟩ := finishSpool_over h r ⟨ge, tf, sk⟩ Storage.disk hmax hover
        cases tf
        · exact ⟨by simp; omega, by simp, by simp, fun _ htf => by simp at htf⟩
        · exact ⟨by simpa using hb, by simp [ht], by simp [ht], fun _ _ => by simpa using ht⟩

/-- Witness for C1: a 15-byte chunked body against a configured maximum
of 10 is caught by the probe: 15 bytes read (at most 10 + 32) and a 413
reply. -/
theorem c1_bounded_read_witness :
    ((bufServe ⟨10, 0, true, 5⟩ ⟨-1, ⟨List.replicate 15 7, false⟩⟩
        ⟨GateEvent.slot, true, true⟩).bytesRead : Int)
      ≤ effLimit ⟨10, 0, true, 5⟩ ⟨-1, ⟨List.replicate 15 7, false⟩⟩ + 32 ∧
    (∀ bs, (bufServe ⟨10, 0, true, 5⟩ ⟨-1, ⟨List.replicate 15 7, false⟩⟩
        ⟨GateEvent.slot, true, true⟩).response ≠ SpoolResponse.delegated bs) ∧
    (bufServe ⟨10, 0, true, 5⟩ ⟨-1, ⟨List.replicate 15 7, false⟩⟩
        ⟨GateEvent.slot, true, true⟩).response ≠ SpoolResponse.passThrough ∧
    ((⟨GateEvent.slot, true, true⟩ : SpoolEnv).gateEvent = GateEvent.slot →
      (⟨GateEvent.slot, true, true⟩ : SpoolEnv).tempFileOk = true →
      (bufServe ⟨10, 0, true, 5⟩ ⟨-1, ⟨List.replicate 15 7, false⟩⟩
        ⟨GateEvent.slot, true, true⟩).response = SpoolResponse.tooLarge) :=
  c1_bounded_read ⟨10, 0, true, 5⟩ ⟨-1, ⟨List.replicate 15 7, false⟩⟩
    ⟨GateEvent.slot, true, true⟩ (by decide) (by decide) (by decide)

/-- Counterexample for C2 as stated: with maximum body size 5, memory
threshold 100 and declared length 50, the declared length is positive and
within the threshold, yet the request is rejected 413 before any storage
is selected, so no in-memory buffer of the declared size is ever
allocated. -/
theorem c2_counterexample :
    (0 : Int) < 100 ∧ (0 : Int) < 50 ∧ (50 : Int) ≤ 100 ∧
    (bufServe ⟨5, 100, false, 0⟩ ⟨50, ⟨List.replicate 50 1, false⟩⟩
        ⟨GateEvent.slot, true, true⟩).memCap ≠ some 50 := by
  decide

/-- Claim C2 (amended): for every request with declared length > 0 at
most the configured memory threshold (> 0), the buffering handler never
acquires a disk slot and never creates a backing file; and provided the
declared length also does not exceed a configured maximum body size
(which would reject the request beforehand), it allocates an in-memory
buffer with capacity equal to the declared length. -/
theorem c2_memory_spool (h : BufConfig) (r : HttpRequest) (env : SpoolEnv)
    (hbuf : 0 < h.bufSize) (hcl : 0 < r.contentLength)
    (hle : r.contentLength ≤ h.bufSize) :
    Event.slotAcquire ∉ (bufServe h r env).trace ∧
    Event.fileCreate ∉ (bufServe h r env).trace ∧
    ((h.maxSize ≤ 0 ∨ r.contentLength ≤ h.maxSize) →
      (bufServe h r env).memCap = some r.contentLength) := by
  rw [bufServe, if_neg (by omega : ¬ r.contentLength = 0)]
  by_cases hrej : 0 < h.maxSize ∧ h.maxSize < r.contentLength
  · rw [if_pos hrej]
    refine ⟨by simp, by simp, fun hc => ?_⟩
    exfalso; rcases hc with hc | hc <;> omega
  · rw [if_neg hrej, if_pos ⟨hbuf, hcl, hle⟩]
    exact ⟨by simp, by simp, fun _ => rfl⟩

/-- Witness for C2 (amended): declared length 3 within threshold 1024 and
maximum 100: no gate or file events and a 3-byte memory buffer. -/
theorem c2_memory_spool_witness :
    Event.slotAcquire ∉ (bufServe ⟨100, 1024, true, 5⟩ ⟨3, ⟨[1, 2, 3], false⟩⟩
        ⟨GateEvent.slot, true, true⟩).trace ∧
    Event.fileCreate ∉ (bufServe ⟨100, 1024, true, 5⟩ ⟨3, ⟨[1, 2, 3], false⟩⟩
        ⟨GateEvent.slot, true, true⟩).trace ∧
    (((100 : Int) ≤ 0 ∨ (3 : Int) ≤ 100) →
      (bufServe ⟨100, 1024, true, 5⟩ ⟨3, ⟨[1, 2, 3], false⟩⟩
        ⟨GateEvent.slot, true, true⟩).memCap = some 3) :=
  c2_memory_spool ⟨100, 1024, true, 5⟩ ⟨3, ⟨[1, 2, 3], false⟩⟩
    ⟨GateEvent.slot, true, true⟩ (by decide) (by decide) (by decide)

/-- Claim C3: on the disk-spool path with a file-limit gate configured,
acquire and release events always balance; when a slot is granted the
trace starts with the acquisition (so the slot is held before the temp
file is created), ends with the release (the handler returns only after
releasing, on every exit path: temp-file failure, copy failure,
over-limit rejection, seek failure or success), and holds exactly one
acquisition; and the gate semantics bound the outstanding tokens by the
configured capacity. -/
theorem c3_disk_slot_pairing (h : BufConfig) (r : HttpRequest) (env : SpoolEnv)
    (hg : h.hasGate = true) (hcl : r.contentLength ≠ 0)
    (hrej : ¬(0 < h.maxSize ∧ h.maxSize < r.contentLength))
    (hmem : ¬(0 < h.bufSize ∧ 0 < r.contentLength ∧ r.contentLength ≤ h.bufSize)) :
    ((bufServe h r env).trace.count Event.slotAcquire
      = (bufServe h r env).trace.count Event.slotRelease) ∧
    (env.gateEvent = GateEvent.slot →
      (bufServe h r env).trace.head? = some Event.slotAcquire ∧
      (bufServe h r env).trace.getLast? = some Event.slotRelease ∧
      (bufServe h r env).trace.count Event.slotAcquire = 1) ∧
    (∀ cap n, GateReach cap n → n ≤ cap) := by
  obtain ⟨ge, tf, sk⟩ := env
  rw [bufServe, if_neg hcl, if_neg hrej, if_neg hmem, if_pos hg]
  cases ge
  · cases tf
    · exact ⟨rfl, fun _ => ⟨rfl, rfl, rfl⟩, fun cap n hn => gateReach_le hn⟩
    · exact ⟨rfl, fun _ => ⟨rfl, rfl, rfl⟩, fun cap n hn => gateReach_le hn⟩
  · exact ⟨rfl, fun hs => by simp at hs, fun cap n hn => gateReach_le hn⟩
  · exact ⟨rfl, fun hs => by simp at hs, fun cap n hn => gateReach_le hn⟩

/-- Witness for C3: an unknown-length body with the gate granting a slot:
trace [acquire, create, release]. -/
theorem c3_disk_slot_pairing_witness :
    ((bufServe ⟨0, 0, true, 5⟩ ⟨-1, ⟨[9], false⟩⟩ ⟨GateEvent.slot, true, true⟩).trace.count
        Event.slotAcquire
      = (bufServe ⟨0, 0, true, 5⟩ ⟨-1, ⟨[9], false⟩⟩ ⟨GateEvent.slot, true, true⟩).trace.count
        Event.slotRelease) ∧
    ((⟨GateEvent.slot, true, true⟩ : SpoolEnv).gateEvent = GateEvent.slot →
      (bufServe ⟨0, 0, true, 5⟩ ⟨-1, ⟨[9], false⟩⟩
          ⟨GateEvent.slot, true, true⟩).trace.head? = some Event.slotAcquire ∧
      (bufServe ⟨0, 0, true, 5⟩ ⟨-1, ⟨[9], false⟩⟩
          ⟨GateEvent.slot, true, true⟩).trace.getLast? = some Event.slotRelease ∧
      (bufServe ⟨0, 0, true, 5⟩ ⟨-1, ⟨[9], false⟩⟩ ⟨GateEvent.slot, true, true⟩).trace.count
        Event.slotAcquire = 1) ∧
    (∀ cap n, GateReach cap n → n ≤ cap) :=
  c3_disk_slot_pairing ⟨0, 0, true, 5⟩ ⟨-1, ⟨[9], false⟩⟩ ⟨GateEvent.slot, true, true⟩
    (by decide) (by decide) (by decide) (by decide)

/-- Claim C4: when a maximum body size is configured and the declared
Content-Length exceeds it, the buffering handler replies 413 at once:
zero bytes read from the body, no gate or file events (so no disk slot
and no downstream invocation), and no memory buffer. -/
theorem c4_declared_too_large (h : BufConfig) (r : HttpRequest) (env : SpoolEnv)
    (hmax : 0 < h.maxSize) (hcl : h.maxSize < r.contentLength) :
    bufServe h r env = ⟨SpoolResponse.tooLarge, [], 0, none⟩ := by
  rw [bufServe, if_neg (by omega : ¬ r.contentLength = 0), if_pos ⟨hmax, hcl⟩]

/-- Witness for C4: declared length 7 against maximum 5. -/
theorem c4_declared_too_large_witness :
    bufServe ⟨5, 1024, true, 5⟩ ⟨7, ⟨[1, 2, 3, 4, 5, 6, 7], false⟩⟩
        ⟨GateEvent.slot, true, true⟩ = ⟨SpoolResponse.tooLarge, [], 0, none⟩ :=
  c4_declared_too_large ⟨5, 1024, true, 5⟩ ⟨7, ⟨[1, 2, 3, 4, 5, 6, 7], false⟩⟩
    ⟨GateEvent.slot, true, true⟩ (by decide) (by decide)

/-- Counterexample for C5 as stated: on the disk path the handler replies
identically - 503 Service Unavailable - whether the wait budget elapses
or the caller cancels; the select only observes ctx.Done() and never
inspects which of the two happened, so no distinguishable cancelled
outcome exists. -/
theorem c5_counterexample :
    bufServe ⟨0, 0, true, 100⟩ ⟨-1, ⟨[7], false⟩⟩ ⟨GateEvent.timeout, true, true⟩
      = bufServe ⟨0, 0, true, 100⟩ ⟨-1, ⟨[7], false⟩⟩ ⟨GateEvent.cancelled, true, true⟩ ∧
    (bufServe ⟨0, 0, true, 100⟩ ⟨-1, ⟨[7], false⟩⟩
        ⟨GateEvent.timeout, true, true⟩).response = SpoolResponse.unavailable := by
  decide

/-- Claim C5 (amended): when the gate select grants a slot the request
proceeds holding it (the trace starts with the acquisition); when
instead the wait budget elapses or the caller's context is cancelled -
whichever happens first - the handler replies 503 Service Unavailable,
the same outcome in both cases, with no token taken. -/
theorem c5_gate_outcomes (h : BufConfig) (r : HttpRequest) (env : SpoolEnv)
    (hg : h.hasGate = true) (hcl : r.contentLength ≠ 0)
    (hrej : ¬(0 < h.maxSize ∧ h.maxSize < r.contentLength))
    (hmem : ¬(0 < h.bufSize ∧ 0 < r.contentLength ∧ r.contentLength ≤ h.bufSize)) :
    (env.gateEvent = GateEvent.slot →
      (bufServe h r env).trace.head? = some Event.slotAcquire) ∧
    (env.gateEvent ≠ GateEvent.slot →
      (bufServe h r env).response = SpoolResponse.unavailable ∧
      (bufServe h r env).trace = []) := by
  obtain ⟨ge, tf, sk⟩ := env
  rw [bufServe, if_neg hcl, if_neg hrej, if_neg hmem, if_pos hg]
  cases ge
  · cases tf
    · exact ⟨fun _ => rfl, fun hs => absurd rfl hs⟩
    · exact ⟨fun _ => rfl, fun hs => absurd rfl hs⟩
  · exact ⟨fun hs => by simp at hs, fun _ => ⟨rfl, rfl⟩⟩
  · exact ⟨fun hs => by simp at hs, fun _ => ⟨rfl, rfl⟩⟩

/-- Witness for C5 (amended): the wait budget elapses, the reply is 503
with an empty event trace. -/
theorem c5_gate_outcomes_witness :
    ((⟨GateEvent.timeout, true, true⟩ : SpoolEnv).gateEvent = GateEvent.slot →
      (bufServe ⟨0, 0, true, 100⟩ ⟨-1, ⟨[7], false⟩⟩
          ⟨GateEvent.timeout, true, true⟩).trace.head? = some Event.slotAcquire) ∧
    ((⟨GateEvent.timeout, true, true⟩ : SpoolEnv).gateEvent ≠ GateEvent.slot →
      (bufServe ⟨0, 0, true, 100⟩ ⟨-1, ⟨[7], false⟩⟩
          ⟨GateEvent.timeout, true, true⟩).response = SpoolResponse.unavailable ∧
      (bufServe ⟨0, 0, true, 100⟩ ⟨-1, ⟨[7], false⟩⟩
          ⟨GateEvent.timeout, true, true⟩).trace = []) :=
  c5_gate_outcomes ⟨0, 0, true, 100⟩ ⟨-1, ⟨[7], false⟩⟩ ⟨GateEvent.timeout, true, true⟩
    (by decide) (by decide) (by decide) (by decide)

/-- Claim C6: round-trip through both spool strategies: any byte
sequence written into the in-memory buffer reads back unchanged (the
buffer is already positioned at the start), and any byte sequence
written into the disk spool reads back unchanged after the rewind to the
start - these are exactly the compositions the buffering handler uses to
hand the body to the downstream handler. -/
theorem c6_spool_roundtrip (bs : List Nat) :
    (MemBuf.empty.write bs).readAll = bs ∧
    ((SpoolFile.empty.write bs).seekStart).readAll = bs := by
  constructor
  · simp [MemBuf.empty, MemBuf.write, MemBuf.readAll]
  · simp [SpoolFile.empty, SpoolFile.write, SpoolFile.seekStart, SpoolFile.readAll]

/-- Witness for C6: the 3-byte sequence 1,2,3 reads back identically
from both spool strategies. -/
theorem c6_spool_roundtrip_witness :
    (MemBuf.empty.write [1, 2, 3]).readAll = [1, 2, 3] ∧
    ((SpoolFile.empty.write [1, 2, 3]).seekStart).readAll = [1, 2, 3] :=
  c6_spool_roundtrip [1, 2, 3]

/-- Claim C10: with a maximum configured and the source failing with a
non-EOF I/O error at its end: when the body holds exactly the effective
limit, the main copy succeeds and the zero-byte probe hits the error, so
the handler replies 413 payload too large; when the body falls short of
the limit, the error hits the main copy instead and the handler replies
500 internal error. -/
theorem c10_probe_error_classification (h : BufConfig) (r : HttpRequest) (env : SpoolEnv)
    (hmax : 0 < h.maxSize) (hcl : r.contentLength ≠ 0)
    (hrej : ¬ h.maxSize < r.contentLength) (hfail : r.body.failAtEnd = true)
    (hslot : env.gateEvent = GateEvent.slot) (htmp : env.tempFileOk = true) :
    ((r.body.data.length : Int) = effLimit h r →
      (bufServe h r env).response = SpoolResponse.tooLarge) ∧
    ((r.body.data.length : Int) < effLimit h r →
      (bufServe h r env).response = SpoolResponse.internalError) := by
  obtain ⟨ge, tf, sk⟩ := env
  simp only at hslot htmp
  subst hslot htmp
  rw [bufServe, if_neg hcl, if_neg (by omega : ¬(0 < h.maxSize ∧ h.maxSize < r.contentLength))]
  by_cases hmem : 0 < h.bufSize ∧ 0 < r.contentLength ∧ r.contentLength ≤ h.bufSize
  · rw [if_pos hmem]
    exact ⟨fun hx => by simpa using finishSpool_exact_fail h r _ Storage.mem hmax hfail hx,
      fun hx => by simpa using finishSpool_short_fail h r _ Storage.mem hmax hfail hx⟩
  · rw [if_neg hmem]
    by_cases hg : h.hasGate = true
    · rw [if_pos hg]
      exact ⟨fun hx => by simpa using finishSpool_exact_fail h r _ Storage.disk hmax hfail hx,
        fun hx => by simpa using finishSpool_short_fail h r _ Storage.disk hmax hfail hx⟩
    · rw [if_neg hg]
      exact ⟨fun hx => by simpa using finishSpool_exact_fail h r _ Storage.disk hmax hfail hx,
        fun hx => by simpa using finishSpool_short_fail h r _ Storage.disk hmax hfail hx⟩

/-- Witness for C10: a chunked body of exactly 10 bytes (the configured
maximum) whose source then raises an I/O error: 413; and one of 4 bytes:
500. -/
theorem c10_probe_error_classification_witness :
    (((List.replicate 10 1).length : Int)
        = effLimit ⟨10, 0, false, 0⟩ ⟨-1, ⟨List.replicate 10 1, true⟩⟩ →
      (bufServe ⟨10, 0, false, 0⟩ ⟨-1, ⟨List.replicate 10 1, true⟩⟩
          ⟨GateEvent.slot, true, true⟩).response = SpoolResponse.tooLarge) ∧
    (((List.replicate 10 1).length : Int)
        < effLimit ⟨10, 0, false, 0⟩ ⟨-1, ⟨List.replicate 10 1, true⟩⟩ →
      (bufServe ⟨10, 0, false, 0⟩ ⟨-1, ⟨List.replicate 10 1, true⟩⟩
          ⟨GateEvent.slot, true, true⟩).response = SpoolResponse.internalError) :=
  c10_probe_error_classification ⟨10, 0, false, 0⟩ ⟨-1, ⟨List.replicate 10 1, true⟩⟩
    ⟨GateEvent.slot, true, true⟩ (by decide) (by decide) (by decide) (by decide)
    (by decide) (by decide)

/-- Claim C7: on a request that reaches conversion, the HTTP status is
504 exactly when convert failed with the deadline-exceeded context
error; convert fails that way exactly when the effective deadline had
elapsed at the point the failure surfaced (the context was already done
with deadline-exceeded at the gate, or the renderer command failed with
the context done by deadline); and every other conversion failure
(non-zero exit, signal or I/O failure with the context live, or a
non-deadline cancellation) yields 500. -/
theorem c7_deadline_maps_504 (cfg : PdfConfig) (r : PdfRequest) (env : PdfEnv)
    (hm : r.method = "POST") (ha : authorized cfg r = true)
    (hct : hasPre r.contentType "text/html" = true) (hcs : env.charsetOk = true) :
    ((pdfsvcServe cfg r env).status = 504 ↔
      (convert env.conv).result = Except.error (ConvertErr.ctx CtxErr.deadlineExceeded)) ∧
    ((convert env.conv).result = Except.error (ConvertErr.ctx CtxErr.deadlineExceeded) ↔
      (env.conv.ctxAtGate = some CtxErr.deadlineExceeded ∨
        (env.conv.ctxAtGate = none ∧ env.conv.cmdSuccess = none ∧
          env.conv.ctxAfterCmd = some CtxErr.deadlineExceeded))) ∧
    (∀ e, (convert env.conv).result = Except.error e →
      e ≠ ConvertErr.ctx CtxErr.deadlineExceeded →
      (pdfsvcServe cfg r env).status = 500) := by
  obtain ⟨cok, g, cs, ca⟩ := env
  simp only at hcs
  subst hcs
  rw [pdfsvcServe, if_neg (by simp [hm]), if_neg (by simp [ha]), if_neg (by simp [hct]),
    if_neg (by simp)]
  cases g with
  | some e =>
      cases e
      · exact ⟨by simp [convert], by simp [convert], fun e he hne => by
          simp [convert] at he; simp [convert, ← he]⟩
      · exact ⟨by simp [convert], by simp [convert], fun e he hne => by
          simp [convert] at he; exact absurd he.symm hne⟩
  | none =>
      cases cs with
      | some out => exact ⟨by simp [convert], by simp [convert], fun e he hne => by
          simp [convert] at he⟩
      | none =>
          cases ca with
          | some e =>
              cases e
              · exact ⟨by simp [convert], by simp [convert], fun e he hne => by
                  simp [convert] at he; simp [convert, ← he]⟩
              · exact ⟨by simp [convert], by simp [convert], fun e he hne => by
                  simp [convert] at he; exact absurd he.symm hne⟩
          | none => exact ⟨by simp [convert], by simp [convert], fun e he hne => by
              simp [convert] at he; simp [convert, ← he]⟩

/-- Witness for C7: the renderer command fails with the conversion
deadline elapsed: the response is 504 and the equivalences hold at this
input. -/
theorem c7_deadline_maps_504_witness :
    ((pdfsvcServe ⟨""⟩ ⟨"POST", "", "text/html"⟩
        ⟨true, ⟨none, none, some CtxErr.deadlineExceeded⟩⟩).status = 504 ↔
      (convert ⟨none, none, some CtxErr.deadlineExceeded⟩).result
        = Except.error (ConvertErr.ctx CtxErr.deadlineExceeded)) ∧
    ((convert ⟨none, none, some CtxErr.deadlineExceeded⟩).result
        = Except.error (ConvertErr.ctx CtxErr.deadlineExceeded) ↔
      ((⟨none, none, some CtxErr.deadlineExceeded⟩ : ConvertEnv).ctxAtGate
          = some CtxErr.deadlineExceeded ∨
        ((⟨none, none, some CtxErr.deadlineExceeded⟩ : ConvertEnv).ctxAtGate = none ∧
          (⟨none, none, some CtxErr.deadlineExceeded⟩ : ConvertEnv).cmdSuccess = none ∧
          (⟨none, none, some CtxErr.deadlineExceeded⟩ : ConvertEnv).ctxAfterCmd
            = some CtxErr.deadlineExceeded))) ∧
    (∀ e, (convert ⟨none, none, some CtxErr.deadlineExceeded⟩).result = Except.error e →
      e ≠ ConvertErr.ctx CtxErr.deadlineExceeded →
      (pdfsvcServe ⟨""⟩ ⟨"POST", "", "text/html"⟩
        ⟨true, ⟨none, none, some CtxErr.deadlineExceeded⟩⟩).status = 500) :=
  c7_deadline_maps_504 ⟨""⟩ ⟨"POST", "", "text/html"⟩
    ⟨true, ⟨none, none, some CtxErr.deadlineExceeded⟩⟩
    (by decide) (by decide) (by decide) (by decide)

/-- Claim C8: every convert call either fails before acquisition with
the context error observed at the gate select and an empty permit trace,
or runs the renderer between exactly one permit acquisition and one
release (on success, process failure and timeout alike); and the gate
semantics bound the outstanding permits by the configured concurrency
limit. -/
theorem c8_permit_pairing (env : ConvertEnv) :
    ((∃ e, env.ctxAtGate = some e ∧
        (convert env).result = Except.error (ConvertErr.ctx e) ∧
        (convert env).trace = []) ∨
      (convert env).trace = [CEvent.permitAcquire, CEvent.rendererRun, CEvent.permitRelease]) ∧
    (∀ cap n, GateReach cap n → n ≤ cap) := by
  refine ⟨?_, fun cap n hn => gateReach_le hn⟩
  obtain ⟨g, cs, ca⟩ := env
  cases g with
  | some e => exact Or.inl ⟨e, rfl, rfl, rfl⟩
  | none =>
      refine Or.inr ?_
      cases cs with
      | some out => rfl
      | none => cases ca with
          | some e => rfl
          | none => rfl

/-- Witness for C8: a renderer that exits cleanly: the permit trace is
acquire, run, release. -/
theorem c8_permit_pairing_witness :
    ((∃ e, (⟨none, some [5], none⟩ : ConvertEnv).ctxAtGate = some e ∧
        (convert ⟨none, some [5], none⟩).result = Except.error (ConvertErr.ctx e) ∧
        (convert ⟨none, some [5], none⟩).trace = []) ∨
      (convert ⟨none, some [5], none⟩).trace
        = [CEvent.permitAcquire, CEvent.rendererRun, CEvent.permitRelease]) ∧
    (∀ cap n, GateReach cap n → n ≤ cap) :=
  c8_permit_pairing ⟨none, some [5], none⟩

/-- Counterexample for C9 as stated: Content-Type text/htmlfoo is
neither text/html nor text/html followed by a parameter section, yet a
POST request carrying it passes the prefix check of the code, conversion
runs, and the response is 200, not 400. -/
theorem c9_counterexample :
    (pdfsvcServe ⟨""⟩ ⟨"POST", "", "text/htmlfoo"⟩
        ⟨true, ⟨none, some [1], none⟩⟩).status = 200 ∧
    (pdfsvcServe ⟨""⟩ ⟨"POST", "", "text/htmlfoo"⟩
        ⟨true, ⟨none, some [1], none⟩⟩).convertInvoked = true ∧
    authorized ⟨""⟩ ⟨"POST", "", "text/htmlfoo"⟩ = true ∧
    claimHtmlContentType "text/htmlfoo" = false := by
  decide

/-- Claim C9 (amended): for every POST request passing the authorization
check, the service responds 400 exactly when the Content-Type header
does not begin with the string text/html, and in that case no conversion
is performed; headers merely beginning with text/html (such as
text/htmlfoo) are not rejected. -/
theorem c9_contenttype_gate (cfg : PdfConfig) (r : PdfRequest) (env : PdfEnv)
    (hm : r.method = "POST") (ha : authorized cfg r = true) :
    ((pdfsvcServe cfg r env).status = 400 ↔ hasPre r.contentType "text/html" = false) ∧
    (hasPre r.contentType "text/html" = false →
      (pdfsvcServe cfg r env).convertInvoked = false) := by
  rw [pdfsvcServe, if_neg (by simp [hm]), if_neg (by simp [ha])]
  by_cases hct : hasPre r.contentType "text/html" = false
  · rw [if_pos hct]
    exact ⟨by simp [hct], fun _ => rfl⟩
  · rw [if_neg hct]
    by_cases hcs : env.charsetOk = false
    · rw [if_pos hcs]
      exact ⟨by simp [hct], fun hc => absurd hc hct⟩
    · rw [if_neg hcs]
      refine ⟨?_, fun hc => absurd hc hct⟩
      cases hres : (convert env.conv).result with
      | ok out => simp [hres, hct]
      | error e =>
          simp only [hres]
          constructor
          · intro h400
            exfalso
            by_cases he : e = ConvertErr.ctx CtxErr.deadlineExceeded <;>
              simp [he] at h400
          · intro hc
            exact absurd hc hct

/-- Witness for C9 (amended): Content-Type application/json on an
authorized POST: response 400 and no conversion. -/
theorem c9_contenttype_gate_witness :
    ((pdfsvcServe ⟨"secret"⟩ ⟨"POST", "Bearer secret", "application/json"⟩
        ⟨true, ⟨none, some [1], none⟩⟩).status = 400 ↔
      hasPre "application/json" "text/html" = false) ∧
    (hasPre "application/json" "text/html" = false →
      (pdfsvcServe ⟨"secret"⟩ ⟨"POST", "Bearer secret", "application/json"⟩
        ⟨true, ⟨none, some [1], none⟩⟩).convertInvoked = false) :=
  c9_contenttype_gate ⟨"secret"⟩ ⟨"POST", "Bearer secret", "application/json"⟩
    ⟨true, ⟨none, some [1], none⟩⟩ (by decide) (by decide)

end Pdfsvc
